import Mathlib

/-!
Shallow embedding of `src/meme_bot.py` (memebot): the memegen.link text
codec, URL builder, command grammar and router, template cache policy,
event classifier, and the subscribe-all routine, together with theorems
settling the specification claims about them.

Python strings are modelled as Lean `String` (a wrapper around
`List Char`); dictionary fields that may be absent are modelled as
`Option`.  Python string primitives (`strip`, `replace`, `split`,
`in`, `lower`, slicing) are embedded below with their Python semantics
restricted to ASCII input, which is all the program manipulates.
-/

set_option maxRecDepth 8000

abbrev Chars := List Char

/-- The ASCII whitespace characters recognised by Python `str.strip()` and
`str.split(None)`. -/
def isPySpace (c : Char) : Bool :=
  c = ' ' || c = '\t' || c = '\n' || c = '\r' || c = '\x0b' || c = '\x0c'

/-- Drop the characters satisfying `p` from both ends of a list. -/
def stripBoth (p : Char → Bool) (l : Chars) : Chars :=
  ((l.dropWhile p).reverse.dropWhile p).reverse

/-- Python `s.strip()`: remove leading and trailing whitespace. -/
def pyStrip (s : String) : String := ⟨stripBoth isPySpace s.data⟩

/-- Python `s.strip(ch)` for a one-character set: remove every leading and
trailing occurrence of `ch` (matching pairs are not required). -/
def pyStripChar (ch : Char) (s : String) : String :=
  ⟨stripBoth (fun c => c = ch) s.data⟩

/-- Python `s.lower()` (ASCII). -/
def pyLower (s : String) : String := ⟨s.data.map Char.toLower⟩

/-- Fuel-driven core of Python `s.replace(pat, rep)`: replace every
non-overlapping occurrence of `pat`, scanning left to right.  The fuel is
instantiated with the length of the scanned list, which suffices because
every step consumes at least one character. -/
def pyReplaceAux (pat rep : Chars) : Nat → Chars → Chars
  | _, [] => []
  | 0, s => s
  | fuel + 1, c :: rest =>
    if !pat.isEmpty && pat.isPrefixOf (c :: rest) then
      rep ++ pyReplaceAux pat rep fuel (rest.drop (pat.length - 1))
    else
      c :: pyReplaceAux pat rep fuel rest

/-- Python `s.replace(pat, rep)` (with non-empty `pat`, as used in the
program).  Also the semantics of `re.sub(re.escape(pat), rep, s)`. -/
def pyReplace (pat rep s : String) : String :=
  ⟨pyReplaceAux pat.data rep.data s.data.length s.data⟩

/-- Fuel-driven core of case-insensitive literal replacement:
`re.sub(re.escape(pat), rep, s, flags=re.IGNORECASE)` on ASCII text. -/
def pyReplaceCIAux (pat rep : Chars) : Nat → Chars → Chars
  | _, [] => []
  | 0, s => s
  | fuel + 1, c :: rest =>
    if !pat.isEmpty && (pat.map Char.toLower).isPrefixOf ((c :: rest).map Char.toLower) then
      rep ++ pyReplaceCIAux pat rep fuel (rest.drop (pat.length - 1))
    else
      c :: pyReplaceCIAux pat rep fuel rest

/-- Case-insensitive literal substitution, as performed by
`re.sub(..., flags=re.IGNORECASE)` on an escaped literal pattern. -/
def pyReplaceCI (pat rep s : String) : String :=
  ⟨pyReplaceCIAux pat.data rep.data s.data.length s.data⟩

/-- Core of Python `pat in hay`. -/
def pyInAux (pat : Chars) : Chars → Bool
  | [] => pat.isEmpty
  | c :: rest => pat.isPrefixOf (c :: rest) || pyInAux pat rest

/-- Python `pat in hay` (substring membership). -/
def pyIn (pat hay : String) : Bool := pyInAux pat.data hay.data

/-- Case-insensitive substring occurrence (used to state what the spec
calls an appearance "case-insensitively in the content"). -/
def pyInCI (pat hay : String) : Bool := pyIn (pyLower pat) (pyLower hay)

/-- Python `s.startswith(pat)`. -/
def pyStartsWith (pat s : String) : Bool := pat.data.isPrefixOf s.data

/-- Python slicing `s[n:]`. -/
def pySliceFrom (n : Nat) (s : String) : String := ⟨s.data.drop n⟩

/-- Python `s.split(sep, 1)` for a one-character separator that is known to
occur: the text before the first `sep` and the text after it. -/
def pySplitOnce (sep : Char) (s : String) : String × String :=
  (⟨s.data.takeWhile (fun c => c ≠ sep)⟩,
   ⟨(s.data.dropWhile (fun c => c ≠ sep)).drop 1⟩)

/-- Python `s.split(None, 1)`: first whitespace-delimited token and the
remainder with its leading whitespace removed (`""` when there is none). -/
def pySplitNone1 (s : String) : String × String :=
  let t := s.data.dropWhile isPySpace
  (⟨t.takeWhile (fun c => !isPySpace c)⟩,
   ⟨(t.dropWhile (fun c => !isPySpace c)).dropWhile isPySpace⟩)

/-- Python `f-string` rendering of a value that may be `None`. -/
def pyFStr : Option String → String
  | some s => s
  | none => "None"

/-- The single-quote character, `chr(39)`. -/
def squo : Char := Char.ofNat 39

/-- A string of one single-quote character. -/
def sq1 : String := ⟨[squo]⟩

/-- A string of two single-quote characters (the replacement the codec
uses for a double quote). -/
def sq2 : String := ⟨[squo, squo]⟩

/-- `MEMEGEN_API` (meme_bot.py line 20). -/
def MEMEGEN_API : String := "https://api.memegen.link"

/-- `CACHE_TTL` (meme_bot.py line 30): five minutes, in seconds. -/
def CACHE_TTL : Int := 300

/-- The ordered replacement table of `_encode_memegen_text`
(meme_bot.py lines 38 to 49).  Every pattern is one character. -/
def memegenReplacements : List (String × String) :=
  [("-", "--"), ("_", "__"), (" ", "_"), ("?", "~q"), ("&", "~a"),
   ("%", "~p"), ("#", "~h"), ("/", "~s"), ("\\", "~b"), ("\"", sq2)]

/-- `_encode_memegen_text` (meme_bot.py lines 33 to 52): strip, map the
empty result to the blank marker, otherwise run the replacement table in
order. -/
def encode_memegen_text (text : String) : String :=
  let t := pyStrip text
  if t = "" then "_"
  else memegenReplacements.foldl (fun acc pr => pyReplace pr.1 pr.2 acc) t

/-- The Text Codec exactly as the spec words it (section 4.1): trim,
empty encodes to the blank token, otherwise apply the ten literal
substring replacements one after the other in the listed order. -/
def specEncode (text : String) : String :=
  let t := pyStrip text
  if t = "" then "_"
  else
    let s1 := pyReplace "-" "--" t
    let s2 := pyReplace "_" "__" s1
    let s3 := pyReplace " " "_" s2
    let s4 := pyReplace "?" "~q" s3
    let s5 := pyReplace "&" "~a" s4
    let s6 := pyReplace "%" "~p" s5
    let s7 := pyReplace "#" "~h" s6
    let s8 := pyReplace "/" "~s" s7
    let s9 := pyReplace "\\" "~b" s8
    pyReplace "\"" sq2 s9

/-- A meme template, as delivered by the provider's `/templates` endpoint:
`id`, `name`, and an optional `example.text` caption list, here called
`exampleText` (meme_bot.py lines 217 to 227 read exactly these fields;
absent dictionary keys are `none`, string keys are modelled with their
`get` defaults collapsed). -/
structure Template where
  id : String
  name : String
  exampleText : Option (List String)
deriving DecidableEq

/-- One reply handed to `send_message` (meme_bot.py lines 134 to 138):
the server, the channel and the message body. -/
structure Sent where
  serverId : String
  channelId : String
  content : String
deriving DecidableEq

/-- `send_message` (meme_bot.py lines 134 to 138), with the HTTP POST
abstracted into the emitted reply record. -/
def send_message (server_id channel_id content : String) : List Sent :=
  [⟨server_id, channel_id, content⟩]

/-- `build_meme_url` (meme_bot.py lines 78 to 82): encode each non-empty
caption half, use the blank marker for an empty one, and interpolate. -/
def build_meme_url (template_id top bottom : String) : String :=
  let top_enc := if top ≠ "" then encode_memegen_text top else "_"
  let bottom_enc := if bottom ≠ "" then encode_memegen_text bottom else "_"
  MEMEGEN_API ++ "/images/" ++ template_id ++ "/" ++ top_enc ++ "/" ++ bottom_enc ++ ".png"

/-- `_parse_top_bottom` (meme_bot.py lines 182 to 190): split on the
first `|` when present, and on each side strip whitespace, then every
leading/trailing double quote, then every leading/trailing single
quote. -/
def parse_top_bottom (text : String) : String × String :=
  if pyIn "|" text then
    let parts := pySplitOnce '|' text
    (pyStripChar squo (pyStripChar '"' (pyStrip parts.1)),
     pyStripChar squo (pyStripChar '"' (pyStrip parts.2)))
  else
    (pyStripChar squo (pyStripChar '"' (pyStrip text)), "")

/-- `POPULAR_TEMPLATES` (meme_bot.py lines 87 to 103). -/
def POPULAR_TEMPLATES : List (String × String) :=
  [("drake", "Drake Hotline Bling"), ("buzz", "Buzz Lightyear"),
   ("doge", "Doge"), ("fry", "Futurama Fry"),
   ("batman", "Batman Slapping Robin"), ("success", "Success Kid"),
   ("grumpy", "Grumpy Cat"), ("rollsafe", "Roll Safe"),
   ("picard", "Picard Facepalm"), ("alien", "Ancient Aliens"),
   ("fine", "This Is Fine"), ("change", "Change My Mind"),
   ("brain", "Expanding Brain"), ("distracted", "Distracted Boyfriend"),
   ("always", "Always Has Been")]

/-- `search_templates` (meme_bot.py lines 71 to 75), over the catalog the
cache currently serves. -/
def search_templates (query : String) (templates : List Template) : List Template :=
  templates.filter (fun t => pyIn (pyLower query) (pyLower t.name))

/-- Python `s.split(sep)[-1]`: the segment after the last `sep`. -/
def pyLastSegment (sep : Char) (s : String) : String :=
  ⟨(s.data.reverse.takeWhile (fun c => c ≠ sep)).reverse⟩

/-- `cmd_help` (meme_bot.py lines 143 to 155). -/
def cmd_help (server_id channel_id : String) (_args : String) : List Sent :=
  send_message server_id channel_id
    ("**Meme Bot Commands**\n" ++
     "`!meme help` - Show this help message\n" ++
     "`!meme generate <template> <top> | <bottom>` - Generate a meme\n" ++
     "`!meme templates` - List popular meme templates\n" ++
     "`!meme search <query>` - Search templates by name\n" ++
     "`!meme random` - Random meme from template list\n" ++
     "`!meme random <top> | <bottom>` - Random template with custom text\n" ++
     "`!meme preview <template>` - Show blank template preview\n" ++
     "\nExample: `!meme generate drake \"using API keys\" | \"using free APIs\"`")

/-- `cmd_templates` (meme_bot.py lines 158 to 163); `templates` is the
list the cache's `fetch_templates()` call returns. -/
def cmd_templates (server_id channel_id : String) (_args : String)
    (templates : List Template) : List Sent :=
  let lines := "**Popular Meme Templates**\n" ::
    (POPULAR_TEMPLATES.map (fun pr => "`" ++ pr.1 ++ "` - " ++ pr.2) ++
     ["\nUse `!meme search <query>` to find more from " ++
       toString templates.length ++ "+ templates."])
  send_message server_id channel_id (String.intercalate "\n" lines)

/-- `cmd_search` (meme_bot.py lines 166 to 179). -/
def cmd_search (server_id channel_id : String) (args : String)
    (templates : List Template) : List Sent :=
  let query := pyStrip args
  if query = "" then
    send_message server_id channel_id "Usage: `!meme search <query>`"
  else
    let results := search_templates query templates
    if results = [] then
      send_message server_id channel_id ("No templates found for **" ++ query ++ "**.")
    else
      let lines := ("**Templates matching \"" ++ query ++ "\"** (showing up to 15)\n") ::
        (results.take 15).map (fun t =>
          "`" ++ pyLastSegment '/' t.id ++ "` - " ++ t.name)
      send_message server_id channel_id (String.intercalate "\n" lines)

/-- `cmd_generate` (meme_bot.py lines 193 to 208): first token is the
lower-cased template id, the remainder a `top | bottom` pair. -/
def cmd_generate (server_id channel_id : String) (args : String) : List Sent :=
  let a := pyStrip args
  if a = "" then
    send_message server_id channel_id
      ("Usage: `!meme generate <template> <top> | <bottom>`\n" ++
       "Example: `!meme generate drake \"coding all night\" | \"sleeping\"`")
  else
    let parts := pySplitNone1 a
    let template_id := pyLower parts.1
    let tb := parse_top_bottom parts.2
    send_message server_id channel_id (build_meme_url template_id tb.1 tb.2)

/-- `cmd_random` (meme_bot.py lines 211 to 230); the `random.choice`
draw is modelled by the index `pick % templates.length`. -/
def cmd_random (server_id channel_id : String) (args : String)
    (templates : List Template) (pick : Nat) : List Sent :=
  if templates = [] then
    send_message server_id channel_id "Failed to fetch templates. Try again later."
  else
    let t := templates.getD (pick % templates.length) ⟨"", "", none⟩
    let tid := pyLastSegment '/' t.id
    let a := pyStrip args
    let tb :=
      if a ≠ "" then parse_top_bottom a
      else
        (match t.exampleText with
         | some (top :: _) => top
         | _ => "",
         match t.exampleText with
         | some (_ :: bottom :: _) => bottom
         | _ => "")
    send_message server_id channel_id
      ("**" ++ t.name ++ "**\n" ++ build_meme_url tid tb.1 tb.2)

/-- `cmd_preview` (meme_bot.py lines 233 to 239): the blank marker is
passed as both caption halves of `build_meme_url`. -/
def cmd_preview (server_id channel_id : String) (args : String) : List Sent :=
  let template_id := pyLower (pyStrip args)
  if template_id = "" then
    send_message server_id channel_id "Usage: `!meme preview <template>`"
  else
    send_message server_id channel_id (build_meme_url template_id "_" "_")

/-- `handle_command` (meme_bot.py lines 252 to 268): lower-cased first
token selects a handler from `COMMANDS`; an unknown verb falls through to
`cmd_generate` applied to the whole stripped text.  The template catalog
and the random draw consumed by the stateful handlers are threaded in as
arguments. -/
def handle_command (server_id channel_id : String) (text : String)
    (templates : List Template) (pick : Nat) : List Sent :=
  let t := pyStrip text
  if t = "" then cmd_help server_id channel_id ""
  else
    let parts := pySplitNone1 t
    let cmd_name := pyLower parts.1
    let cmd_args := parts.2
    if cmd_name = "help" then cmd_help server_id channel_id cmd_args
    else if cmd_name = "generate" then cmd_generate server_id channel_id cmd_args
    else if cmd_name = "templates" then cmd_templates server_id channel_id cmd_args templates
    else if cmd_name = "search" then cmd_search server_id channel_id cmd_args templates
    else if cmd_name = "random" then cmd_random server_id channel_id cmd_args templates pick
    else if cmd_name = "preview" then cmd_preview server_id channel_id cmd_args
    else cmd_generate server_id channel_id t

/-- One inbound message event, after the `data.get('data', data)`
unwrapping of meme_bot.py line 315: the fields lines 311 to 336 read,
each `get` default already applied (`type`, `content`, `senderId`,
`channelId`, `serverId` default to `""`, `isDirect` to false, `mentions`
to the empty list). -/
structure ChatEvent where
  type : String
  content : String
  senderId : String
  channelId : String
  serverId : String
  isDirect : Bool
  mentions : List String
deriving DecidableEq

/-- The event types line 312 lets through (`''` is the default for an
absent `type` key). -/
def ALLOWED_EVENT_TYPES : List String := ["new_message", "message_created", ""]

/-- `on_message_event` (meme_bot.py lines 308 to 344).  `botId` and
`botName` are the global `bot_id` / `bot_name` (`none` until startup
fills them; Python truthiness makes `none` and `""` equally inert in the
mention logic).  The returned list collects every reply the event causes. -/
def on_message_event (botId botName : Option String) (ev : ChatEvent)
    (templates : List Template) (pick : Nat) : List Sent :=
  if ¬ ALLOWED_EVENT_TYPES.contains ev.type then []
  else if botId = some ev.senderId then []
  else if ev.isDirect then []
  else if pyStartsWith "!meme" ev.content then
    handle_command ev.serverId ev.channelId (pyStrip (pySliceFrom 5 ev.content)) templates pick
  else
    let mentioned :=
      match botId with
      | none => false
      | some bid =>
        bid != "" && (ev.mentions.contains bid
          || pyIn ("@" ++ pyFStr botName) ev.content
          || pyIn ("<@" ++ bid ++ ">") ev.content)
    if mentioned then
      let c1 :=
        match botId with
        | some bid => if bid ≠ "" then pyReplace ("<@" ++ bid ++ ">") "" ev.content else ev.content
        | none => ev.content
      let c2 :=
        match botName with
        | some n => if n ≠ "" then pyReplaceCI ("@" ++ n) "" c1 else c1
        | none => c1
      handle_command ev.serverId ev.channelId (pyStrip c2) templates pick
    else []

/-- The template cache's module state (`_templates_cache`,
`_templates_fetched_at`, meme_bot.py lines 28 to 29); time is modelled
as an integer number of seconds. -/
structure CacheState where
  cache : List Template
  fetchedAt : Int
deriving DecidableEq

/-- `fetch_templates` (meme_bot.py lines 55 to 68).  `now` is the
current clock reading and `upstream` the outcome the provider's list
endpoint would produce if called (`none` for any failure: network error,
non-2xx status, malformed body).  Returns the function's return value,
the module state after the call, and whether an upstream fetch was
issued. -/
def fetch_templates (st : CacheState) (now : Int) (upstream : Option (List Template)) :
    List Template × CacheState × Bool :=
  if st.cache ≠ [] ∧ now - st.fetchedAt < CACHE_TTL then
    (st.cache, st, false)
  else
    match upstream with
    | some body => (body, ⟨body, now⟩, true)
    | none => (st.cache, st, true)

/-- One record of the `/servers` listing (meme_bot.py lines 357 to 359):
`srv.get('serverId')`, `srv.get('id')` and the display name, each `none`
when the key is absent. -/
structure Server where
  serverId : Option String
  id : Option String
  name : Option String
deriving DecidableEq

/-- One record of a `/{serverId}/channels` listing (meme_bot.py lines
374 to 376): `id` and `name` with their `get` defaults collapsed, and
`ch.get('type')`, which is `none` when the channel carries no type. -/
structure Channel where
  id : String
  name : String
  type : Option String
deriving DecidableEq

/-- Python `a or b` over optional strings: `a` unless it is `None` or
empty. -/
def pyOrOpt (a b : Option String) : Option String :=
  match a with
  | some s => if s = "" then b else some s
  | none => b

/-- One `sio.emit('subscribe', ...)` payload of `subscribe_all`: a
server-scope or a channel-scope subscription. -/
inductive SubEmit where
  | server (id : Option String)
  | channel (id : String)
deriving DecidableEq

/-- `subscribe_all` (meme_bot.py lines 347 to 382).  `serversResp` is
the `/servers` response (`none` for a failed or falsy response) and
`channelsOf` maps each resolved server id to its `/{id}/channels`
response (`none` for a failed or falsy response).  Returns the emitted
subscriptions in order. -/
def subscribe_all (serversResp : Option (List Server))
    (channelsOf : Option String → Option (List Channel)) : List SubEmit :=
  match serversResp with
  | none => []
  | some servers =>
    servers.flatMap fun srv =>
      let srvId := pyOrOpt srv.serverId srv.id
      SubEmit.server srvId ::
        (match channelsOf srvId with
         | none => []
         | some channels =>
           channels.filterMap fun ch =>
             if ch.type = some "text" ∨ ch.type = some "" then
               some (SubEmit.channel ch.id)
             else none)

/-- The unquoting step exactly as claim C2 words it: at most one pair of
MATCHING leading/trailing occurrences of the quote character `q` is
stripped. -/
def claimStripOnePair (q : Char) (s : String) : String :=
  match s.data with
  | [] => s
  | c :: rest =>
    if c = q ∧ rest ≠ [] ∧ rest.getLast? = some q then ⟨rest.dropLast⟩ else s

/-- `parseTextPair` exactly as claim C2 words it: split on the first
`|`, trim each side, then strip at most one pair of matching
leading/trailing quote characters (double or single, independently per
side). -/
def claim_parse_top_bottom (text : String) : String × String :=
  if pyIn "|" text then
    let parts := pySplitOnce '|' text
    (claimStripOnePair squo (claimStripOnePair '"' (pyStrip parts.1)),
     claimStripOnePair squo (claimStripOnePair '"' (pyStrip parts.2)))
  else
    (claimStripOnePair squo (claimStripOnePair '"' (pyStrip text)), "")

/-- `parseTextPair` as the counterexample forces the claim to be
amended: each side is trimmed and then has EVERY leading and trailing
double-quote character stripped, then every leading and trailing
single-quote character, with no requirement that the quotes come in
matching pairs. -/
def amended_parse_top_bottom (text : String) : String × String :=
  if pyIn "|" text then
    let parts := pySplitOnce '|' text
    (pyStripChar squo (pyStripChar '"' (pyStrip parts.1)),
     pyStripChar squo (pyStripChar '"' (pyStrip parts.2)))
  else
    (pyStripChar squo (pyStripChar '"' (pyStrip text)), "")

/-- A sample catalog entry used by concrete instances. -/
def tDrake : Template := ⟨"drake", "Drake Hotline Bling", none⟩

/-! ## Theorems settling the claims -/

/-- Claim C6 (confirmed): the encoder is a total function that trims
leading/trailing whitespace, maps an input empty after trimming to the
blank token, and otherwise applies the ten literal replacements in the
spec's exact order (`specEncode` transcribes the spec's wording); and
the three example encodings hold. -/
theorem C6_encoder_spec :
    (∀ s : String, encode_memegen_text s = specEncode s) ∧
    encode_memegen_text "" = "_" ∧
    encode_memegen_text "a-b_c d" = "a--b__c_d" ∧
    encode_memegen_text "say \"hi\"?" = "say_" ++ sq2 ++ "hi" ++ sq2 ++ "~q" :=
  ⟨fun _ => rfl, by decide, by decide, by decide⟩

/-- Claim C2 is false as stated: on the doubly double-quoted input
`""a""` the code strips BOTH quote pairs, whereas stripping at most one
matching pair, as the claim words it, would leave one pair in place. -/
theorem C2_counterexample :
    parse_top_bottom "\"\"a\"\"" = ("a", "") ∧
    claim_parse_top_bottom "\"\"a\"\"" = ("\"a\"", "") ∧
    parse_top_bottom "\"\"a\"\"" ≠ claim_parse_top_bottom "\"\"a\"\"" :=
  ⟨by decide, by decide, by decide⟩

/-- Claim C2 as amended: the pair parser splits on the first `|`, trims
each side, and strips EVERY leading and trailing double quote and then
every leading and trailing single quote from each side (matching pairs
not required); with no `|` the whole trimmed, unquoted text becomes the
top half.  The claim's three examples hold unchanged. -/
theorem C2_pair_parser_amended :
    (∀ t : String, parse_top_bottom t = amended_parse_top_bottom t) ∧
    parse_top_bottom "top | bottom" = ("top", "bottom") ∧
    parse_top_bottom ("\"a\" | " ++ sq1 ++ "b" ++ sq1) = ("a", "b") ∧
    parse_top_bottom "justtop" = ("justtop", "") :=
  ⟨fun _ => rfl, by decide, by decide, by decide⟩

/-- Claim C1 (code bug): on the non-empty argument `drake` the preview
command emits exactly one reply, but both caption halves of its URL are
`__`, because the blank marker `_` is passed through the Text Codec
(which escapes an underscore) instead of bypassing it; the claimed URL
with bare `_` halves is different.  The empty-argument usage reply is as
claimed. -/
theorem C1_preview_double_encodes_blank_marker :
    cmd_preview "s1" "c1" "drake" =
      [⟨"s1", "c1", "https://api.memegen.link/images/drake/__/__.png"⟩] ∧
    encode_memegen_text "_" = "__" ∧
    "https://api.memegen.link/images/drake/__/__.png" ≠
      "https://api.memegen.link/images/drake/_/_.png" ∧
    cmd_preview "s1" "c1" " " = [⟨"s1", "c1", "Usage: `!meme preview <template>`"⟩] :=
  ⟨by decide, by decide, by decide, by decide⟩

/-- Claim C5 (confirmed): the full pipeline on the event
`!meme generate drake "A" | "B"` from a foreign sender in a public
channel produces exactly one reply, whose body is the drake URL with the
unquoted captions. -/
theorem C5_end_to_end_generate :
    on_message_event (some "bot1") none
      ⟨"", "!meme generate drake \"A\" | \"B\"", "u1", "ch1", "srv1", false, []⟩ [] 0 =
      [⟨"srv1", "ch1", "https://api.memegen.link/images/drake/A/B.png"⟩] := by
  decide

/-- Claim C7 (confirmed): when the lower-cased first token of the
command text is none of the six table verbs, dispatch hands the entire
stripped, unsplit text to the generate handler; in particular
`xyz hello` generates with template id `xyz` and caption `hello`. -/
theorem C7_unknown_verb_fallback :
    (∀ (sid cid text : String) (tpl : List Template) (pick : Nat),
       pyStrip text ≠ "" →
       pyLower (pySplitNone1 (pyStrip text)).1 ≠ "help" →
       pyLower (pySplitNone1 (pyStrip text)).1 ≠ "generate" →
       pyLower (pySplitNone1 (pyStrip text)).1 ≠ "templates" →
       pyLower (pySplitNone1 (pyStrip text)).1 ≠ "search" →
       pyLower (pySplitNone1 (pyStrip text)).1 ≠ "random" →
       pyLower (pySplitNone1 (pyStrip text)).1 ≠ "preview" →
       handle_command sid cid text tpl pick = cmd_generate sid cid (pyStrip text)) ∧
    (∀ (sid cid : String) (tpl : List Template) (pick : Nat),
       handle_command sid cid "xyz hello" tpl pick =
         [⟨sid, cid, "https://api.memegen.link/images/xyz/hello/_.png"⟩]) := by
  constructor
  · intro sid cid text tpl pick h0 h1 h2 h3 h4 h5 h6
    simp [handle_command, h0, h1, h2, h3, h4, h5, h6]
  · intro sid cid tpl pick
    rfl

/-- Witness for C7: the fallback theorem applied at `xyz hello`. -/
theorem C7_unknown_verb_fallback_witness :
    handle_command "s" "c" " xyz hello " [] 0 = cmd_generate "s" "c" (pyStrip " xyz hello ") ∧
    handle_command "s" "c" "xyz hello" [] 0 =
      [⟨"s", "c", "https://api.memegen.link/images/xyz/hello/_.png"⟩] :=
  ⟨C7_unknown_verb_fallback.1 "s" "c" " xyz hello " [] 0 (by decide) (by decide) (by decide)
     (by decide) (by decide) (by decide) (by decide),
   C7_unknown_verb_fallback.2 "s" "c" [] 0⟩

/-- Claim C8 (confirmed): a self-authored event and a direct-message
event are both ignored — no reply is emitted — whatever the content. -/
theorem C8_self_and_direct_ignored :
    ∀ (botId botName : Option String) (ev : ChatEvent) (tpl : List Template) (pick : Nat),
      botId = some ev.senderId ∨ ev.isDirect = true →
      on_message_event botId botName ev tpl pick = [] := by
  intro botId botName ev tpl pick h
  rcases h with h | h
  · simp [on_message_event, h]
  · simp [on_message_event, h]

/-- Witness for C8: a self-authored and a direct `!meme help` event,
both answered with silence. -/
theorem C8_self_and_direct_ignored_witness :
    on_message_event (some "b1") none ⟨"", "!meme help", "b1", "c1", "s1", false, []⟩ [] 0 = [] ∧
    on_message_event (some "b1") none ⟨"", "!meme help", "u1", "c1", "s1", true, []⟩ [] 0 = [] :=
  ⟨C8_self_and_direct_ignored _ _ _ _ _ (Or.inl rfl),
   C8_self_and_direct_ignored _ _ _ _ _ (Or.inr rfl)⟩

/-- Claim C10 (confirmed): while the bot identity id is still unset,
no event without the `!meme` prefix is ever dispatched — the mention
branch cannot fire, whatever the mentions list or the content. -/
theorem C10_unset_identity_no_mention :
    ∀ (botName : Option String) (ev : ChatEvent) (tpl : List Template) (pick : Nat),
      pyStartsWith "!meme" ev.content = false →
      on_message_event none botName ev tpl pick = [] := by
  intro botName ev tpl pick h
  simp [on_message_event, h]

/-- Witness for C10: the bot's name is known and appears in the content,
and the mentions list is non-empty, yet nothing is dispatched. -/
theorem C10_unset_identity_no_mention_witness :
    on_message_event none (some "MemeBot")
      ⟨"", "@MemeBot hi", "u1", "c1", "s1", false, ["b1"]⟩ [] 0 = [] :=
  C10_unset_identity_no_mention _ _ _ _ (by decide)

/-- Claim C3 is false as stated: with identity name `MemeBot` the
content `@memebot hi` contains the name-token case-insensitively, so the
claim requires a MentionCommand dispatch (which would reply with the
generated `hi` URL), yet the code — whose containment test is
case-sensitive — sends nothing. -/
theorem C3_counterexample :
    pyInCI "@MemeBot" "@memebot hi" = true ∧
    on_message_event (some "b1") (some "MemeBot")
      ⟨"", "@memebot hi", "u1", "c1", "s1", false, []⟩ [] 0 = [] ∧
    handle_command "s1" "c1" "hi" [] 0 =
      [⟨"s1", "c1", "https://api.memegen.link/images/hi/_/_.png"⟩] :=
  ⟨by decide, by decide, by decide⟩

/-- Claim C3 as amended: for a non-ignored event and a fully set
identity, a mention dispatch happens exactly when the id is listed in
the mentions, the literal `@name` occurs CASE-SENSITIVELY in the
content, or the structured id-token occurs; the dispatched text is the
content with the id-token occurrences removed, then the name-token
occurrences removed case-insensitively, then trimmed. -/
theorem C3_mention_dispatch_amended :
    ∀ (bid n : String) (ev : ChatEvent) (tpl : List Template) (pick : Nat),
      bid ≠ "" → n ≠ "" →
      ev.type ∈ ALLOWED_EVENT_TYPES →
      ev.senderId ≠ bid →
      ev.isDirect = false →
      pyStartsWith "!meme" ev.content = false →
      on_message_event (some bid) (some n) ev tpl pick =
        (if ev.mentions.contains bid || pyIn ("@" ++ n) ev.content
            || pyIn ("<@" ++ bid ++ ">") ev.content then
          handle_command ev.serverId ev.channelId
            (pyStrip (pyReplaceCI ("@" ++ n) ""
              (pyReplace ("<@" ++ bid ++ ">") "" ev.content))) tpl pick
        else []) := by
  intro bid n ev tpl pick hbid hn htype hsender hdirect hpfx
  simp [on_message_event, htype, hdirect, hpfx, pyFStr, hbid, hn, Ne.symm hsender]

/-- Witness for C3's amended theorem at a concrete mention event. -/
theorem C3_mention_dispatch_amended_witness :
    on_message_event (some "b1") (some "MemeBot")
      ⟨"", "@MemeBot hi", "u1", "c1", "s1", false, []⟩ [] 0 =
      (if ([] : List String).contains "b1" || pyIn "@MemeBot" "@MemeBot hi"
          || pyIn "<@b1>" "@MemeBot hi" then
        handle_command "s1" "c1"
          (pyStrip (pyReplaceCI "@MemeBot" "" (pyReplace "<@b1>" "" "@MemeBot hi"))) [] 0
      else []) :=
  C3_mention_dispatch_amended "b1" "MemeBot"
    ⟨"", "@MemeBot hi", "u1", "c1", "s1", false, []⟩ [] 0
    (by decide) (by decide) (by decide) (by decide) rfl (by decide)

/-- Claim C4 (confirmed): a non-empty cache younger than the TTL is
served without touching the provider; otherwise a fetch is issued; a
failing fetch leaves cache and timestamp exactly as they were; and after
a successful non-empty refresh a second call within the TTL serves the
cache without a second fetch, so the two calls issue exactly one. -/
theorem C4_cache_policy :
    (∀ (st : CacheState) (now : Int) (upstream : Option (List Template)),
       st.cache ≠ [] → now - st.fetchedAt < CACHE_TTL →
       fetch_templates st now upstream = (st.cache, st, false)) ∧
    (∀ (st : CacheState) (now : Int) (upstream : Option (List Template)),
       ¬ (st.cache ≠ [] ∧ now - st.fetchedAt < CACHE_TTL) →
       (fetch_templates st now upstream).2.2 = true) ∧
    (∀ (st : CacheState) (now : Int),
       (fetch_templates st now none).1 = st.cache ∧
       (fetch_templates st now none).2.1 = st) ∧
    (∀ (st0 : CacheState) (t0 t1 : Int) (body : List Template)
       (up2 : Option (List Template)),
       ¬ (st0.cache ≠ [] ∧ t0 - st0.fetchedAt < CACHE_TTL) →
       body ≠ [] → t1 - t0 < CACHE_TTL →
       fetch_templates st0 t0 (some body) = (body, ⟨body, t0⟩, true) ∧
       fetch_templates ⟨body, t0⟩ t1 up2 = (body, ⟨body, t0⟩, false)) := by
  refine ⟨?_, ?_, ?_, ?_⟩
  · intro st now upstream h1 h2
    simp [fetch_templates, h1, h2]
  · intro st now upstream h
    cases upstream <;> simp [fetch_templates, h]
  · intro st now
    by_cases h : st.cache ≠ [] ∧ now - st.fetchedAt < CACHE_TTL <;>
      simp [fetch_templates, h]
  · intro st0 t0 t1 body up2 h hbody htime
    constructor
    · simp [fetch_templates, h]
    · simp [fetch_templates, hbody, htime]

/-- Witness for C4: each clause of the cache policy at concrete states,
times and provider outcomes. -/
theorem C4_cache_policy_witness :
    fetch_templates ⟨[tDrake], 0⟩ 100 none = ([tDrake], ⟨[tDrake], 0⟩, false) ∧
    (fetch_templates ⟨[], 0⟩ 1000 none).2.2 = true ∧
    ((fetch_templates ⟨[tDrake], 0⟩ 1000 none).1 = [tDrake] ∧
     (fetch_templates ⟨[tDrake], 0⟩ 1000 none).2.1 = ⟨[tDrake], 0⟩) ∧
    (fetch_templates ⟨[], 0⟩ 400 (some [tDrake]) = ([tDrake], ⟨[tDrake], 400⟩, true) ∧
     fetch_templates ⟨[tDrake], 400⟩ 500 none = ([tDrake], ⟨[tDrake], 400⟩, false)) :=
  ⟨C4_cache_policy.1 ⟨[tDrake], 0⟩ 100 none (by decide) (by decide),
   C4_cache_policy.2.1 ⟨[], 0⟩ 1000 none (by decide),
   C4_cache_policy.2.2.1 ⟨[tDrake], 0⟩ 1000,
   C4_cache_policy.2.2.2 ⟨[], 0⟩ 400 500 [tDrake] none (by decide) (by decide) (by decide)⟩

/-- Claim C9 is false as stated: on a server whose only channel carries
no type value at all, the code's membership test rejects the absent
type, so no channel-scope subscribe is emitted, while "untyped treated
as text" requires one. -/
theorem C9_counterexample :
    subscribe_all (some [⟨some "s1", none, none⟩])
      (fun _ => some [⟨"c1", "general", none⟩]) = [SubEmit.server (some "s1")] ∧
    SubEmit.channel "c1" ∉ subscribe_all (some [⟨some "s1", none, none⟩])
      (fun _ => some [⟨"c1", "general", none⟩]) :=
  ⟨by decide, by decide⟩

/-- Claim C9 as amended: every enumerated server gets a server-scope
subscribe, and a channel-scope subscribe is emitted exactly for the
channels, of servers whose enumeration succeeded, whose type value is
the literal string `text` or the empty string — channels with an absent
type are skipped; the characterisation is independent of any other
server's enumeration failing. -/
theorem C9_subscribe_all_amended :
    ∀ (servers : List Server) (channelsOf : Option String → Option (List Channel)),
      (∀ srv ∈ servers,
        SubEmit.server (pyOrOpt srv.serverId srv.id) ∈
          subscribe_all (some servers) channelsOf) ∧
      (∀ cid : String,
        SubEmit.channel cid ∈ subscribe_all (some servers) channelsOf ↔
          ∃ srv ∈ servers, ∃ chs, channelsOf (pyOrOpt srv.serverId srv.id) = some chs ∧
            ∃ ch ∈ chs, ch.id = cid ∧ (ch.type = some "text" ∨ ch.type = some "")) := by
  intro servers channelsOf
  constructor
  · intro srv hsrv
    simp only [subscribe_all, List.mem_flatMap]
    exact ⟨srv, hsrv, List.mem_cons_self _ _⟩
  · intro cid
    simp only [subscribe_all, List.mem_flatMap]
    constructor
    · rintro ⟨srv, hsrv, hmem⟩
      rcases List.mem_cons.mp hmem with h | h
      · cases h
      · cases hchf : channelsOf (pyOrOpt srv.serverId srv.id) with
        | none => rw [hchf] at h; cases h
        | some chs =>
          rw [hchf] at h
          rcases List.mem_filterMap.mp h with ⟨ch, hch, heq⟩
          by_cases hc : ch.type = some "text" ∨ ch.type = some ""
          · rw [if_pos hc] at heq
            exact ⟨srv, hsrv, chs, hchf, ch, hch, (SubEmit.channel.injEq _ _).mp
              (Option.some.injEq _ _ ▸ heq).symm ▸ rfl, hc⟩
          · rw [if_neg hc] at heq
            cases heq
    · rintro ⟨srv, hsrv, chs, hchf, ch, hch, hid, htype⟩
      refine ⟨srv, hsrv, ?_⟩
      rw [hchf]
      exact List.mem_cons_of_mem _ (List.mem_filterMap.mpr
        ⟨ch, hch, by rw [if_pos htype, hid]⟩)

/-- Witness for C9's amended theorem: two servers, the first server's
channel enumeration failing, the second carrying one text channel; the
second server's subscription and its channel subscription are both
present. -/
theorem C9_subscribe_all_amended_witness :
    SubEmit.server (pyOrOpt (some "s2") none) ∈
      subscribe_all (some [⟨some "s1", none, none⟩, ⟨some "s2", none, none⟩])
        (fun o => if o = some "s1" then none else some [⟨"c2", "general", some "text"⟩]) ∧
    SubEmit.channel "c2" ∈
      subscribe_all (some [⟨some "s1", none, none⟩, ⟨some "s2", none, none⟩])
        (fun o => if o = some "s1" then none else some [⟨"c2", "general", some "text"⟩]) :=
  ⟨(C9_subscribe_all_amended [⟨some "s1", none, none⟩, ⟨some "s2", none, none⟩]
      (fun o => if o = some "s1" then none else some [⟨"c2", "general", some "text"⟩])).1
      ⟨some "s2", none, none⟩ (by decide),
   ((C9_subscribe_all_amended [⟨some "s1", none, none⟩, ⟨some "s2", none, none⟩]
      (fun o => if o = some "s1" then none else some [⟨"c2", "general", some "text"⟩])).2
      "c2").mpr
      ⟨⟨some "s2", none, none⟩, by decide, [⟨"c2", "general", some "text"⟩], by decide,
       ⟨"c2", "general", some "text"⟩, by decide, rfl, Or.inl rfl⟩⟩
